import Mathlib

/-
  Verification of the DB2-to-SQL-Server synchronization engine and the
  record-processor daemon of the backend-detectar-laptop repository.

  The embedding models:
  - app/services/sincronizacion_db2_v2.py  (namespace Sync)
  - app/services/fj_httpx_fallback.py      (namespace FJ)
  - app/services/daemon_procesador.py      (namespace Daemon)

  Conventions of the embedding:
  - The SQLAlchemy session of the sync run is a pair of row lists
    (confirmados = rows visible after the last commit, pendientes = rows
    flushed inside the current transaction).  add+flush appends to
    pendientes when the unique index on ID_SOLICITUD admits the row and
    raises otherwise; rollback discards pendientes; commit moves
    pendientes into confirmados.  This mirrors session semantics with
    autocommit disabled, which is what SessionLocal provides.
  - Fallible externals are parameters: the DB2 extraction is an
    Except String (list of records), the remote lookup API is a function
    from page number to a page result, and infrastructure failures that
    the code handles with explicit control flow (audit insert, process
    insert, report insert, document save) are Bool flags.
  - Clock fields (timestamps, durations) are omitted: no claim depends
    on them.  Row columns that are copied verbatim and never branch the
    control flow are likewise omitted.
-/

theorem mem_le_foldr_max (ns : List Nat) : ∀ n ∈ ns, n ≤ ns.foldr Nat.max 0 := by
  intro n hn
  induction ns with
  | nil => cases hn
  | cons m resto ih =>
    rcases List.mem_cons.mp hn with h | h
    · subst h
      exact Nat.le_max_left _ _
    · exact Nat.le_trans (ih h) (Nat.le_max_right _ _)

namespace Sync

/-- One record fetched from DB2 by obtener_clientes_db2.  Only the
external id (ID_SOLICITUD, the column with the unique index) and the
submission date (used for the min/max observability fields) drive the
control flow; the other copied columns are omitted. -/
structure Registro where
  idSolicitud : Nat
  fechaSolicitud : Option Nat
deriving DecidableEq, Repr

/-- The destination session: rows made durable by the last commit and
rows flushed inside the open transaction. -/
structure Sesion where
  confirmados : List Registro
  pendientes : List Registro
deriving DecidableEq, Repr

/-- The unique index on ID_SOLICITUD rejects a new row whose id is
already present, either committed or flushed in the open transaction. -/
def idOcupado (s : Sesion) (idSol : Nat) : Bool :=
  (s.confirmados ++ s.pendientes).any (fun r => decide (r.idSolicitud = idSol))

/-- db_destino.rollback(): the open transaction is discarded. -/
def Sesion.rollback (s : Sesion) : Sesion :=
  { s with pendientes := [] }

/-- db_destino.commit(): flushed rows become durable. -/
def Sesion.commitAll (s : Sesion) : Sesion :=
  { confirmados := s.confirmados ++ s.pendientes, pendientes := [] }

/-- The three per-record counters of the sync result. -/
structure Conteos where
  insertados : Nat
  duplicados : Nat
  errores : Nat
deriving DecidableEq, Repr

/-- The per-record insert loop of sincronizar_clientes_db2 (lines
133-150): each record is added and flushed; a unique-constraint
violation counts as duplicate and rolls back; any other insert error
(injected here by fallaInfra, indexed like enumerate from 1) counts as
error and rolls back; otherwise the insert counts as inserted. -/
def insertarRegistros (fallaInfra : Nat → Bool) :
    List Registro → Nat → Sesion → Conteos → Sesion × Conteos
  | [], _, s, c => (s, c)
  | reg :: resto, idx, s, c =>
    if fallaInfra idx then
      insertarRegistros fallaInfra resto (idx + 1) s.rollback
        { c with errores := c.errores + 1 }
    else if idOcupado s reg.idSolicitud then
      insertarRegistros fallaInfra resto (idx + 1) s.rollback
        { c with duplicados := c.duplicados + 1 }
    else
      insertarRegistros fallaInfra resto (idx + 1)
        { s with pendientes := s.pendientes ++ [reg] }
        { c with insertados := c.insertados + 1 }

/-- The estado field of the sync result: INICIALIZANDO, SUCCESS,
PARTIAL ( parcial) and ERROR. -/
inductive EstadoSync where
  | inicializando
  | success
  | parcial
  | error
deriving DecidableEq, Repr

/-- One row of de_sincronizacion_control (the audit ledger). -/
structure Control where
  nombreProceso : String
  numeroSincronizacion : Nat
  registrosTraidos : Nat
  registrosInsertados : Nat
  registrosDuplicados : Nat
  registrosError : Nat
  estado : EstadoSync
  mensajeResultado : String
deriving DecidableEq, Repr

def nombreProceso : String := "carga_clientes_db2_v2"

/-- The run numbers recorded in the ledger for this process name, in
row order. -/
def numerosRegistrados (ledger : List Control) : List Nat :=
  (ledger.filter (fun c => decide (c.nombreProceso = nombreProceso))).map
    (fun c => c.numeroSincronizacion)

/-- obtener_ultimo_numero_sincronizacion (lines 38-50): the greatest
recorded number for this process name plus one, defaulting to 1 when
none exists.  Over Nat both cases collapse to foldr max 0 + 1. -/
def obtenerUltimoNumeroSincronizacion (ledger : List Control) : Nat :=
  (numerosRegistrados ledger).foldr Nat.max 0 + 1

/-- The resultado dictionary of sincronizar_clientes_db2. -/
structure Resultado where
  numeroSincronizacion : Nat
  registrosTraidos : Nat
  registrosInsertados : Nat
  registrosDuplicados : Nat
  registrosError : Nat
  estado : EstadoSync
  mensaje : String
  fechaMinimaDb2 : Option Nat
  fechaMaximaDb2 : Option Nat
deriving DecidableEq, Repr

/-- The full effect of one sincronizar_clientes_db2 call. -/
structure SyncReturn where
  exito : Bool
  resultado : Resultado
  dbFinal : List Registro
  ledgerFinal : List Control
deriving DecidableEq, Repr

def minimoOpt : List Nat → Option Nat
  | [] => none
  | x :: xs => some (xs.foldl Nat.min x)

def maximoOpt : List Nat → Option Nat
  | [] => none
  | x :: xs => some (xs.foldl Nat.max x)

/-- The audit row written in the finally block (lines 182-200). -/
def filaAuditoria (numeroSync : Nat) (r : Resultado) : Control :=
  { nombreProceso := nombreProceso
    numeroSincronizacion := numeroSync
    registrosTraidos := r.registrosTraidos
    registrosInsertados := r.registrosInsertados
    registrosDuplicados := r.registrosDuplicados
    registrosError := r.registrosError
    estado := r.estado
    mensajeResultado := r.mensaje }

/-- The audit write of the finally block: appends one row; a failed
write (auditOk = false) is only logged and leaves the ledger as it
was. -/
def escribirAuditoria (auditOk : Bool) (ledger : List Control)
    (numeroSync : Nat) (r : Resultado) : List Control :=
  if auditOk then ledger ++ [filaAuditoria numeroSync r] else ledger

/-- sincronizar_clientes_db2 (lines 79-215).  extraccion models the
obtener_clientes_db2 call (Except.error when DB2 raises), fallaInfra
injects non-duplicate insert errors by 1-based record index, auditOk
models whether the audit insert of the finally block succeeds. -/
def sincronizarClientesDb2 (extraccion : Except String (List Registro))
    (fallaInfra : Nat → Bool) (auditOk : Bool)
    (db : List Registro) (ledger : List Control) : SyncReturn :=
  let numeroSync := obtenerUltimoNumeroSincronizacion ledger
  let resultado0 : Resultado :=
    { numeroSincronizacion := numeroSync
      registrosTraidos := 0, registrosInsertados := 0
      registrosDuplicados := 0, registrosError := 0
      estado := .inicializando, mensaje := ""
      fechaMinimaDb2 := none, fechaMaximaDb2 := none }
  match extraccion with
  | .error e =>
    let resultado1 := { resultado0 with estado := EstadoSync.error, mensaje := e }
    { exito := false
      resultado := resultado1
      dbFinal := db
      ledgerFinal := escribirAuditoria auditOk ledger numeroSync resultado1 }
  | .ok registrosDb2 =>
    let parDbRes :=
      if registrosDb2.isEmpty then
        (db, { resultado0 with
                 estado := EstadoSync.success
                 mensaje := "Sin registros en el periodo" })
      else
        let fechas := registrosDb2.filterMap (fun r => r.fechaSolicitud)
        let parSesion := insertarRegistros fallaInfra registrosDb2 1 ⟨db, []⟩ ⟨0, 0, 0⟩
        let conteos := parSesion.2
        let estadoFinal :=
          if conteos.errores = 0 then EstadoSync.success else EstadoSync.parcial
        (parSesion.1.commitAll.confirmados,
         { resultado0 with
             registrosTraidos := registrosDb2.length
             registrosInsertados := conteos.insertados
             registrosDuplicados := conteos.duplicados
             registrosError := conteos.errores
             estado := estadoFinal
             mensaje := "resumen insertados y duplicados"
             fechaMinimaDb2 := minimoOpt fechas
             fechaMaximaDb2 := maximoOpt fechas })
    let resultado1 := parDbRes.2
    let exito :=
      decide (resultado1.estado = EstadoSync.success ∨ resultado1.estado = EstadoSync.parcial)
    { exito := exito
      resultado := resultado1
      dbFinal := parDbRes.1
      ledgerFinal := escribirAuditoria auditOk ledger numeroSync resultado1 }

/-- The environment of one run_sync execution: extraction outcome,
injected insert failures, audit-write success. -/
structure EjecucionSpec where
  extraccion : Except String (List Registro)
  fallaInfra : Nat → Bool
  auditOk : Bool

/-- A sequence of run_sync executions threading the destination table
and the audit ledger. -/
def ejecutarSecuencia : List EjecucionSpec → List Registro × List Control →
    List Registro × List Control
  | [], st => st
  | spec :: resto, st =>
    let r := sincronizarClientesDb2 spec.extraccion spec.fallaInfra spec.auditOk st.1 st.2
    ejecutarSecuencia resto (r.dbFinal, r.ledgerFinal)

end Sync

namespace FJ

/-- The opaque payload of one judicial case returned by the API. -/
abbrev Item := Nat

/-- The behaviour of _consultar_pagina_api (lines 75-172) for one page:
ok items models (items, True) and fail models (None, False), which
covers non-2xx statuses, timeouts and malformed bodies alike. -/
inductive PageResult where
  | ok (items : List Item)
  | fail
deriving DecidableEq, Repr

def maxPages : Nat := 20

def reportsDir : String := "sri_ruc_output/reports"

/-- The artifact file name: "reporte_" plus the client name with spaces
replaced by underscores plus ".docx" (line 390). -/
def nombreArchivoReporte (nombre : String) : String :=
  "reporte_" ++ String.mk (nombre.data.map (fun ch => if ch = ' ' then '_' else ch)) ++ ".docx"

/-- os.path.join(REPORTS_DIR, nombre_archivo) (line 391). -/
def rutaReporte (nombre : String) : String :=
  reportsDir ++ "/" ++ nombreArchivoReporte nombre

/-- The page loop of generar_reporte_httpx (lines 326-376): walks the
given page numbers, breaking on the first failed page and on the first
page that succeeds with zero items, accumulating items and recording
the last page that contributed data (pagina_actual). -/
def buclePaginas (api : Nat → PageResult) :
    List Nat → List Item → Nat → List Item × Nat
  | [], acumulados, paginaActual => (acumulados, paginaActual)
  | pagina :: resto, acumulados, paginaActual =>
    match api pagina with
    | .fail => (acumulados, paginaActual)
    | .ok [] => (acumulados, paginaActual)
    | .ok (item :: items) =>
      buclePaginas api resto (acumulados ++ item :: items) pagina

/-- The three-way classification of one lookup call. -/
inductive Outcome where
  | resultsFound (items : List Item) (paginas : Nat)
  | noResults
  | apiError
deriving DecidableEq, Repr

/-- The classification part of generar_reporte_httpx (lines 216-387),
before the document is saved: page 1 failed gives apiError with no
further page consulted; page 1 empty gives noResults; otherwise pages
2..MAX_PAGES are walked by buclePaginas and the outcome is
resultsFound with the accumulated items and pagina_actual. -/
def lookup (api : Nat → PageResult) : Outcome :=
  match api 1 with
  | .fail => .apiError
  | .ok resultadosP1 =>
    if resultadosP1.isEmpty then .noResults
    else
      let r := buclePaginas api (List.range' 2 (maxPages - 1)) resultadosP1 1
      .resultsFound r.1 r.2

/-- The scenario string of the resultado dictionary. -/
inductive Escenario where
  | resultsFound
  | noResults
  | apiError
  | errorGuardado
deriving DecidableEq, Repr

/-- The resultado dictionary returned by generar_reporte_httpx. -/
structure ResultadoHttpx where
  escenario : Escenario
  totalProcesos : Nat
  totalPaginas : Nat
deriving DecidableEq, Repr

/-- Writes a file: an existing path is overwritten, a new path is
appended.  File contents are abstracted to the job id of the cycle
that saved the document. -/
def escribirArchivo : List (String × Nat) → String → Nat → List (String × Nat)
  | [], ruta, contenido => [(ruta, contenido)]
  | (r, c) :: resto, ruta, contenido =>
    if r = ruta then (r, contenido) :: resto
    else (r, c) :: escribirArchivo resto ruta contenido

/-- generar_reporte_httpx (lines 191-428).  An api failure on page 1
returns (None, api_error) and nothing is written; otherwise the
document is rendered and doc.save is attempted (guardadoOk): on save
failure the function returns (None, scenario error) with zeroed
counters; on success it returns the artifact path, the classification
counters, and the updated file store.  jobId is the job identifier
argument of the source function: it does not influence the path. -/
def generarReporteHttpx (nombreCliente : String) (jobId : Nat)
    (api : Nat → PageResult) (guardadoOk : Bool)
    (archivos : List (String × Nat)) :
    Option String × ResultadoHttpx × List (String × Nat) :=
  match lookup api with
  | .apiError => (none, ⟨.apiError, 0, 0⟩, archivos)
  | .noResults =>
    if guardadoOk then
      (some (rutaReporte nombreCliente), ⟨.noResults, 0, 1⟩,
       escribirArchivo archivos (rutaReporte nombreCliente) jobId)
    else (none, ⟨.errorGuardado, 0, 0⟩, archivos)
  | .resultsFound items paginaActual =>
    if guardadoOk then
      (some (rutaReporte nombreCliente), ⟨.resultsFound, items.length, paginaActual⟩,
       escribirArchivo archivos (rutaReporte nombreCliente) jobId)
    else (none, ⟨.errorGuardado, 0, 0⟩, archivos)

/-- Items of one page as seen by the accumulation (a failed page
contributes nothing). -/
def itemsDePagina (api : Nat → PageResult) (p : Nat) : List Item :=
  match api p with
  | .ok l => l
  | .fail => []

/-- The items of pages 1..j in page order: the accumulation that the
claim describes. -/
def itemsHasta (api : Nat → PageResult) (j : Nat) : List Item :=
  (List.range' 1 j).flatMap (itemsDePagina api)

end FJ

namespace Daemon

/-- ESTADO_CONSULTA values of de_clientes_rpa_v2. -/
inductive EstadoConsulta where
  | Pendiente
  | Procesando
  | Procesado
  | Error
deriving DecidableEq, Repr

/-- One row of de_clientes_rpa_v2 as the daemon sees it. -/
structure Cliente where
  id : Nat
  apellidos : String
  nombres : String
  estadoConsulta : EstadoConsulta
  fechaCreacionRegistro : Nat
deriving DecidableEq, Repr

/-- Estado values of de_procesos_rpa. -/
inductive EstadoProceso where
  | Pendiente
  | Completado
  | Error_API
  | Error_Total
deriving DecidableEq, Repr

/-- One row of de_procesos_rpa. -/
structure Proceso where
  id : Nat
  clienteId : Nat
  jobId : Nat
  estado : EstadoProceso
  totalPaginasExitosas : Nat
deriving DecidableEq, Repr

/-- One row of de_reportes_rpa. -/
structure Reporte where
  procesoId : Nat
  clienteId : Nat
  jobId : Nat
  nombreArchivo : String
  rutaArchivo : String
  generadoExitosamente : Bool
deriving DecidableEq, Repr

/-- The persistent state the daemon touches: the three tables plus the
report files on disk. -/
structure DbState where
  clientes : List Cliente
  procesos : List Proceso
  reportes : List Reporte
  archivos : List (String × Nat)
deriving DecidableEq, Repr

/-- The environment of one daemon cycle: the api behaviour, whether
doc.save succeeds, whether the process-row insert succeeds, whether the
report-row insert succeeds, and the fresh job identifier of the
cycle. -/
structure Env where
  api : Nat → FJ.PageResult
  guardadoDocOk : Bool
  crearProcesoOk : Bool
  guardarReporteOk : Bool
  jobId : Nat

/-- Python str.strip of leading and trailing whitespace, on the
character list of the string. -/
def pyStrip (l : List Char) : List Char :=
  ((l.dropWhile Char.isWhitespace).reverse.dropWhile Char.isWhitespace).reverse

/-- One name field of _construir_nombre_busqueda (lines 50-57): strip,
then replace each hyphen by a space, then delete each period. -/
def limpiarCampo (s : String) : String :=
  String.mk (((pyStrip s.data).map (fun ch => if ch = '-' then ' ' else ch)).filter
    (fun ch => ch ≠ '.'))

/-- Python str.split() on the character list: maximal whitespace-free
words, dropping empty pieces. -/
def palabrasAux : List Char → List Char → List (List Char)
  | [], palabra => if palabra.isEmpty then [] else [palabra.reverse]
  | ch :: resto, palabra =>
    if ch.isWhitespace then
      if palabra.isEmpty then palabrasAux resto []
      else palabra.reverse :: palabrasAux resto []
    else palabrasAux resto (ch :: palabra)

/-- _construir_nombre_busqueda (lines 40-75): clean both fields, join
the nonempty ones with a single space, then collapse repeated
whitespace with a split-and-join. -/
def construirNombreBusqueda (apellidos nombres : String) : String :=
  let a := limpiarCampo apellidos
  let n := limpiarCampo nombres
  let nombreCompleto :=
    if a ≠ "" ∧ n ≠ "" then a ++ " " ++ n
    else if a ≠ "" then a
    else n
  String.mk (List.intercalate [' '] (palabrasAux nombreCompleto.data []))

/-- _actualizar_cliente_estado (lines 78-92): sets ESTADO_CONSULTA of
the first row with the given id. -/
def actualizarClienteEstado (cid : Nat) (e : EstadoConsulta) :
    List Cliente → List Cliente
  | [] => []
  | c :: resto =>
    if c.id = cid then { c with estadoConsulta := e } :: resto
    else c :: actualizarClienteEstado cid e resto

/-- _actualizar_proceso (lines 240-255): sets estado of the first row
with the given id and, when exitoso, sets total_paginas_exitosas to
1. -/
def actualizarProceso (pid : Nat) (e : EstadoProceso) (exitoso : Bool) :
    List Proceso → List Proceso
  | [] => []
  | p :: resto =>
    if p.id = pid then
      { p with estado := e
               totalPaginasExitosas := if exitoso then 1 else p.totalPaginasExitosas } :: resto
    else p :: actualizarProceso pid e exitoso resto

/-- First row with the given id, as query(...).filter(id == x).first(). -/
def buscarCliente (cid : Nat) : List Cliente → Option Cliente
  | [] => none
  | c :: resto => if c.id = cid then some c else buscarCliente cid resto

/-- First process row with the given id. -/
def buscarProceso (pid : Nat) : List Proceso → Option Proceso
  | [] => none
  | p :: resto => if p.id = pid then some p else buscarProceso pid resto

/-- The oldest Pendiente client so far, by FECHA_CREACION_REGISTRO
ascending (ties keep the earlier row). -/
def masAntiguo (c : Cliente) : List Cliente → Cliente
  | [] => c
  | x :: resto =>
    if x.fechaCreacionRegistro < c.fechaCreacionRegistro then masAntiguo x resto
    else masAntiguo c resto

/-- _obtener_cliente_pendiente (lines 258-269): the single oldest
Pendiente row, or none. -/
def obtenerClientePendiente (cs : List Cliente) : Option Cliente :=
  match cs.filter (fun c => decide (c.estadoConsulta = .Pendiente)) with
  | [] => none
  | c :: resto => some (masAntiguo c resto)

/-- The autoincrement primary key for a new process row. -/
def freshProcesoId (ps : List Proceso) : Nat :=
  (ps.map (fun p => p.id)).foldr Nat.max 0 + 1

/-- _obtener_job_id (lines 123-130): the job id stored on the process
row, with a fresh identifier as fallback. -/
def obtenerJobId (pid : Nat) (ps : List Proceso) (porDefecto : Nat) : Nat :=
  match buscarProceso pid ps with
  | some p => p.jobId
  | none => porDefecto

/-- os.path.basename of the artifact path. -/
def nombreBase (ruta : String) : String :=
  String.mk ((ruta.data.reverse.takeWhile (fun ch => ch ≠ '/')).reverse)

/-- _ejecutar_consulta_funcion_judicial (lines 272-365): calls
generar_reporte_httpx and branches on the scenario.  Returns the exito
flag, the final state and the intermediate states after each write, in
order.  Cases 1 and 2 (results_found and no_results with a path) save
the report row best-effort and mark the process Completado either way;
case 3 (api_error) resets the client to Pendiente and marks the
process Error_API without creating any report row; anything else
resets the client to Pendiente and marks the process Error_Total. -/
def ejecutarConsultaFuncionJudicial (env : Env) (procesoId clienteId : Nat)
    (nombres : String) (jobId : Nat) (s : DbState) :
    Bool × DbState × List DbState :=
  let r := FJ.generarReporteHttpx nombres jobId env.api env.guardadoDocOk s.archivos
  let s0 := { s with archivos := r.2.2 }
  match r.2.1.escenario, r.1 with
  | .resultsFound, some ruta =>
    let s1 :=
      if env.guardarReporteOk then
        { s0 with reportes := s0.reportes ++
            [⟨procesoId, clienteId, jobId, nombreBase ruta, ruta, true⟩] }
      else s0
    let s2 := { s1 with procesos := actualizarProceso procesoId .Completado true s1.procesos }
    (true, s2, [s0, s1, s2])
  | .noResults, some ruta =>
    let s1 :=
      if env.guardarReporteOk then
        { s0 with reportes := s0.reportes ++
            [⟨procesoId, clienteId, jobId, nombreBase ruta, ruta, true⟩] }
      else s0
    let s2 := { s1 with procesos := actualizarProceso procesoId .Completado true s1.procesos }
    (true, s2, [s0, s1, s2])
  | .apiError, _ =>
    let s1 := { s0 with clientes := actualizarClienteEstado clienteId .Pendiente s0.clientes }
    let s2 := { s1 with procesos := actualizarProceso procesoId .Error_API false s1.procesos }
    (false, s2, [s0, s1, s2])
  | _, _ =>
    let s1 := { s0 with clientes := actualizarClienteEstado clienteId .Pendiente s0.clientes }
    let s2 := { s1 with procesos := actualizarProceso procesoId .Error_Total false s1.procesos }
    (false, s2, [s0, s1, s2])

/-- The outcome of one cycle: the final state, whether the 30-minute
wait phase was reached (a continue skips it), and the intermediate
states after each write. -/
structure CicloResult where
  db : DbState
  espero : Bool
  traza : List DbState

/-- The row _crear_proceso inserts: fresh autoincrement id, the client,
the job identifier of the cycle, estado Pendiente. -/
def procesoNuevo (env : Env) (cliente : Cliente) (s1 : DbState) : Proceso :=
  ⟨freshProcesoId s1.procesos, cliente.id, env.jobId, .Pendiente, 0⟩

/-- The state after _crear_proceso succeeded. -/
def estadoConProceso (env : Env) (cliente : Cliente) (s1 : DbState) : DbState :=
  { s1 with procesos := s1.procesos ++ [procesoNuevo env cliente s1] }

/-- The consultation step of the cycle: _obtener_job_id followed by
_ejecutar_consulta_funcion_judicial on the state holding the new
process row. -/
def consultaCiclo (env : Env) (cliente : Cliente) (nombres : String)
    (s1 : DbState) : Bool × DbState × List DbState :=
  ejecutarConsultaFuncionJudicial env (procesoNuevo env cliente s1).id cliente.id nombres
    (obtenerJobId (procesoNuevo env cliente s1).id
      (estadoConProceso env cliente s1).procesos env.jobId)
    (estadoConProceso env cliente s1)

/-- The state after a successful consultation: the client is marked
Procesado (line 419). -/
def dbTrasExito (env : Env) (cliente : Cliente) (nombres : String)
    (s1 : DbState) : DbState :=
  { (consultaCiclo env cliente nombres s1).2.1 with
    clientes := actualizarClienteEstado cliente.id .Procesado
      (consultaCiclo env cliente nombres s1).2.1.clientes }

/-- The tail of one daemon cycle after the client was marked Procesando
(lines 403-422): create the process row with a fresh id, read its job
id back, run the consultation, and on exito mark the client
Procesado. -/
def cicloConsulta (env : Env) (cliente : Cliente) (nombres : String)
    (s1 : DbState) : CicloResult :=
  if (consultaCiclo env cliente nombres s1).1 then
    { db := dbTrasExito env cliente nombres s1
      espero := true
      traza := [s1, estadoConProceso env cliente s1] ++
        (consultaCiclo env cliente nombres s1).2.2 ++ [dbTrasExito env cliente nombres s1] }
  else
    { db := (consultaCiclo env cliente nombres s1).2.1
      espero := true
      traza := [s1, estadoConProceso env cliente s1] ++
        (consultaCiclo env cliente nombres s1).2.2 }

/-- One iteration of _daemon_loop (lines 375-430), assuming the running
flag holds: dequeue the oldest Pendiente client; an empty constructed
name marks the client Error and skips the wait phase; otherwise the
client is marked Procesando, a process row is created (reverting to
Pendiente and skipping the wait on failure), the lookup runs, and a
successful consultation marks the client Procesado. -/
def ciclo (env : Env) (s : DbState) : CicloResult :=
  match obtenerClientePendiente s.clientes with
  | none => { db := s, espero := true, traza := [] }
  | some cliente =>
    let nombres := construirNombreBusqueda cliente.apellidos cliente.nombres
    if nombres = "" then
      let s1 := { s with clientes := actualizarClienteEstado cliente.id .Error s.clientes }
      { db := s1, espero := false, traza := [s1] }
    else
      let s1 := { s with clientes := actualizarClienteEstado cliente.id .Procesando s.clientes }
      if env.crearProcesoOk = false then
        let s2 := { s1 with clientes := actualizarClienteEstado cliente.id .Pendiente s1.clientes }
        { db := s2, espero := false, traza := [s1, s2] }
      else
        cicloConsulta env cliente nombres s1

/-- Number of clients in estado Procesando. -/
def cuentaProcesando : List Cliente → Nat
  | [] => 0
  | c :: resto =>
    (if c.estadoConsulta = .Procesando then 1 else 0) + cuentaProcesando resto

end Daemon

/-
  Helper lemmas about the synchronization engine.
-/

theorem mem_of_getLast?_eq {α : Type} {l : List α} {x : α} (h : x ∈ l.getLast?) : x ∈ l := by
  rcases List.mem_getLast?_eq_getLast h with ⟨hne, rfl⟩
  exact List.getLast_mem hne

theorem numerosRegistrados_append (ledger : List Sync.Control) (fila : Sync.Control)
    (h : fila.nombreProceso = Sync.nombreProceso) :
    Sync.numerosRegistrados (ledger ++ [fila]) =
      Sync.numerosRegistrados ledger ++ [fila.numeroSincronizacion] := by
  simp [Sync.numerosRegistrados, List.filter_append, h]

theorem chain_escribirAuditoria (auditOk : Bool) (ledger : List Sync.Control)
    (r : Sync.Resultado)
    (h : List.Chain' (· < ·) (Sync.numerosRegistrados ledger)) :
    List.Chain' (· < ·) (Sync.numerosRegistrados
      (Sync.escribirAuditoria auditOk ledger
        (Sync.obtenerUltimoNumeroSincronizacion ledger) r)) := by
  unfold Sync.escribirAuditoria
  split
  · rw [numerosRegistrados_append _ _ rfl]
    rw [List.chain'_append]
    refine ⟨h, List.chain'_singleton _, ?_⟩
    intro x hx y hy
    simp only [List.head?_cons, Option.mem_def, Option.some.injEq] at hy
    subst hy
    have hmem : x ∈ Sync.numerosRegistrados ledger := mem_of_getLast?_eq hx
    have hle := mem_le_foldr_max _ x hmem
    simp only [Sync.filaAuditoria, Sync.obtenerUltimoNumeroSincronizacion]
    omega
  · exact h

theorem ledgerFinal_eq (extraccion : Except String (List Sync.Registro))
    (fallaInfra : Nat → Bool) (auditOk : Bool)
    (db : List Sync.Registro) (ledger : List Sync.Control) :
    (Sync.sincronizarClientesDb2 extraccion fallaInfra auditOk db ledger).ledgerFinal =
      Sync.escribirAuditoria auditOk ledger
        (Sync.obtenerUltimoNumeroSincronizacion ledger)
        (Sync.sincronizarClientesDb2 extraccion fallaInfra auditOk db ledger).resultado := by
  cases extraccion with
  | error e => simp [Sync.sincronizarClientesDb2]
  | ok regs => simp [Sync.sincronizarClientesDb2]

/-- C3: for any sequence of run_sync executions (any extraction
outcomes, any injected insert failures, any audit-write outcomes, hence
any final statuses SUCCESS, PARTIAL or ERROR), the run numbers recorded
in the audit ledger for the fixed process name are strictly
increasing. -/
theorem c3_run_numbers_strictly_increasing (runs : List Sync.EjecucionSpec)
    (db0 : List Sync.Registro) :
    List.Chain' (· < ·)
      (Sync.numerosRegistrados (Sync.ejecutarSecuencia runs (db0, [])).2) := by
  suffices h : ∀ (rs : List Sync.EjecucionSpec) (st : List Sync.Registro × List Sync.Control),
      List.Chain' (· < ·) (Sync.numerosRegistrados st.2) →
      List.Chain' (· < ·) (Sync.numerosRegistrados (Sync.ejecutarSecuencia rs st).2) by
    exact h runs (db0, []) (by simp [Sync.numerosRegistrados])
  intro rs
  induction rs with
  | nil => intro st h; simpa [Sync.ejecutarSecuencia] using h
  | cons spec resto ih =>
    intro st h
    simp only [Sync.ejecutarSecuencia]
    refine ih _ ?_
    simp only [ledgerFinal_eq]
    exact chain_escribirAuditoria _ _ _ h

/-- C7: run_sync always terminates with a fully populated result (the
estado never remains INICIALIZANDO; on extraction failure the counts
stay at zero and the estado is ERROR while the call still returns
normally), the returned success flag is true exactly when the estado is
SUCCESS or PARTIAL, and the outcome of the audit write changes neither
the flag, nor the result, nor the destination table. -/
theorem c7_run_sync_total_contract (extraccion : Except String (List Sync.Registro))
    (fallaInfra : Nat → Bool) (auditOk : Bool)
    (db : List Sync.Registro) (ledger : List Sync.Control) :
    ((Sync.sincronizarClientesDb2 extraccion fallaInfra auditOk db ledger).exito = true ↔
      ((Sync.sincronizarClientesDb2 extraccion fallaInfra auditOk db ledger).resultado.estado =
          Sync.EstadoSync.success ∨
       (Sync.sincronizarClientesDb2 extraccion fallaInfra auditOk db ledger).resultado.estado =
          Sync.EstadoSync.parcial))
    ∧ (Sync.sincronizarClientesDb2 extraccion fallaInfra auditOk db ledger).resultado.estado ≠
        Sync.EstadoSync.inicializando
    ∧ (∀ msg, extraccion = Except.error msg →
        (Sync.sincronizarClientesDb2 extraccion fallaInfra auditOk db ledger).exito = false ∧
        (Sync.sincronizarClientesDb2 extraccion fallaInfra auditOk db ledger).resultado.estado =
          Sync.EstadoSync.error ∧
        (Sync.sincronizarClientesDb2 extraccion fallaInfra auditOk db ledger).resultado.registrosTraidos = 0 ∧
        (Sync.sincronizarClientesDb2 extraccion fallaInfra auditOk db ledger).resultado.registrosInsertados = 0 ∧
        (Sync.sincronizarClientesDb2 extraccion fallaInfra auditOk db ledger).resultado.registrosDuplicados = 0 ∧
        (Sync.sincronizarClientesDb2 extraccion fallaInfra auditOk db ledger).resultado.registrosError = 0)
    ∧ (Sync.sincronizarClientesDb2 extraccion fallaInfra auditOk db ledger).exito =
        (Sync.sincronizarClientesDb2 extraccion fallaInfra true db ledger).exito
    ∧ (Sync.sincronizarClientesDb2 extraccion fallaInfra auditOk db ledger).resultado =
        (Sync.sincronizarClientesDb2 extraccion fallaInfra true db ledger).resultado
    ∧ (Sync.sincronizarClientesDb2 extraccion fallaInfra auditOk db ledger).dbFinal =
        (Sync.sincronizarClientesDb2 extraccion fallaInfra true db ledger).dbFinal := by
  cases extraccion with
  | error e =>
    refine ⟨?_, ?_, ?_, ?_, ?_, ?_⟩ <;> simp [Sync.sincronizarClientesDb2]
  | ok regs =>
    by_cases hempty : regs.isEmpty
    · refine ⟨?_, ?_, ?_, ?_, ?_, ?_⟩ <;> simp [Sync.sincronizarClientesDb2, hempty]
    · by_cases herr :
        (Sync.insertarRegistros fallaInfra regs 1 ⟨db, []⟩ ⟨0, 0, 0⟩).2.errores = 0 <;>
        refine ⟨?_, ?_, ?_, ?_, ?_, ?_⟩ <;>
        simp [Sync.sincronizarClientesDb2, hempty, herr]

/-- C7 witness: a concrete extraction failure returns normally with
success false, estado ERROR and zero counts. -/
theorem c7_witness :
    (Sync.sincronizarClientesDb2 (Except.error "db2 caida") (fun _ => false) false [] []).exito = false ∧
    (Sync.sincronizarClientesDb2 (Except.error "db2 caida") (fun _ => false) false [] []).resultado.estado =
      Sync.EstadoSync.error ∧
    (Sync.sincronizarClientesDb2 (Except.error "db2 caida") (fun _ => false) false [] []).resultado.registrosTraidos = 0 ∧
    (Sync.sincronizarClientesDb2 (Except.error "db2 caida") (fun _ => false) false [] []).resultado.registrosInsertados = 0 ∧
    (Sync.sincronizarClientesDb2 (Except.error "db2 caida") (fun _ => false) false [] []).resultado.registrosDuplicados = 0 ∧
    (Sync.sincronizarClientesDb2 (Except.error "db2 caida") (fun _ => false) false [] []).resultado.registrosError = 0 :=
  (c7_run_sync_total_contract (Except.error "db2 caida") (fun _ => false) false [] []).2.2.1
    "db2 caida" rfl

/-- C1: the claim states that a failed insert never undoes a record of
the same run that was previously inserted successfully.  The code
violates this: with ID 100 already in the destination and DB2 returning
the fresh ID 200 followed by the duplicate ID 100, the run counts the
insert of 200 and reports SUCCESS with inserted = 1, duplicate = 1, yet
the rollback taken for the duplicate discards the still uncommitted
flush of ID 200, so after the final commit the destination does not
contain 200. -/
theorem c1_isolation_eval :
    (Sync.sincronizarClientesDb2 (Except.ok [⟨200, none⟩, ⟨100, none⟩]) (fun _ => false) true
      [⟨100, none⟩] []).resultado.registrosInsertados = 1 ∧
    (Sync.sincronizarClientesDb2 (Except.ok [⟨200, none⟩, ⟨100, none⟩]) (fun _ => false) true
      [⟨100, none⟩] []).resultado.registrosDuplicados = 1 ∧
    (Sync.sincronizarClientesDb2 (Except.ok [⟨200, none⟩, ⟨100, none⟩]) (fun _ => false) true
      [⟨100, none⟩] []).exito = true ∧
    (Sync.sincronizarClientesDb2 (Except.ok [⟨200, none⟩, ⟨100, none⟩]) (fun _ => false) true
      [⟨100, none⟩] []).dbFinal.map (fun c => c.idSolicitud) = [100] := by
  decide

theorem insertar_conteos_mono (fallaInfra : Nat → Bool) (regs : List Sync.Registro) :
    ∀ (idx : Nat) (s : Sync.Sesion) (c : Sync.Conteos),
      c.duplicados ≤ (Sync.insertarRegistros fallaInfra regs idx s c).2.duplicados ∧
      c.errores ≤ (Sync.insertarRegistros fallaInfra regs idx s c).2.errores := by
  induction regs with
  | nil => intro idx s c; simp [Sync.insertarRegistros]
  | cons reg resto ih =>
    intro idx s c
    simp only [Sync.insertarRegistros]
    split
    · have h := ih (idx + 1) s.rollback { c with errores := c.errores + 1 }
      simp only at h
      omega
    · split
      · have h := ih (idx + 1) s.rollback { c with duplicados := c.duplicados + 1 }
        simp only at h
        omega
      · have h := ih (idx + 1) { s with pendientes := s.pendientes ++ [reg] }
          { c with insertados := c.insertados + 1 }
        simp only at h
        omega


theorem insertar_sin_fallos (fallaInfra : Nat → Bool) (regs : List Sync.Registro) :
    ∀ (idx : Nat) (s : Sync.Sesion) (c : Sync.Conteos),
      (Sync.insertarRegistros fallaInfra regs idx s c).2.duplicados = c.duplicados →
      (Sync.insertarRegistros fallaInfra regs idx s c).2.errores = c.errores →
      Sync.insertarRegistros fallaInfra regs idx s c =
        (⟨s.confirmados, s.pendientes ++ regs⟩,
         ⟨c.insertados + regs.length, c.duplicados, c.errores⟩) := by
  induction regs with
  | nil =>
    intro idx s c _ _
    simp [Sync.insertarRegistros]
  | cons reg resto ih =>
    intro idx s c hdup herr
    by_cases hf : fallaInfra idx = true
    · exfalso
      have h := (insertar_conteos_mono fallaInfra resto (idx + 1) s.rollback
        { c with errores := c.errores + 1 }).2
      simp only [Sync.insertarRegistros, hf, if_true] at herr
      simp only at h
      omega
    · by_cases hocc : Sync.idOcupado s reg.idSolicitud = true
      · exfalso
        have h := (insertar_conteos_mono fallaInfra resto (idx + 1) s.rollback
          { c with duplicados := c.duplicados + 1 }).1
        simp only [Sync.insertarRegistros, hf, hocc, Bool.false_eq_true, if_false, if_true] at hdup
        simp only at h
        omega
      · simp only [Sync.insertarRegistros, hf, hocc, Bool.false_eq_true, if_false] at hdup herr ⊢
        have h := ih (idx + 1) { s with pendientes := s.pendientes ++ [reg] }
          { c with insertados := c.insertados + 1 } hdup herr
        rw [h]
        congr 1
        · simp [List.append_assoc]
        · congr 1
          simp only [List.length_cons]
          omega

theorem insertar_todo_duplicado (regs : List Sync.Registro) :
    ∀ (idx : Nat) (s : Sync.Sesion) (c : Sync.Conteos),
      s.pendientes = [] →
      (∀ r ∈ regs, ∃ r2 ∈ s.confirmados, r2.idSolicitud = r.idSolicitud) →
      Sync.insertarRegistros (fun _ => false) regs idx s c =
        (s, ⟨c.insertados, c.duplicados + regs.length, c.errores⟩) := by
  induction regs with
  | nil =>
    intro idx s c _ _
    simp [Sync.insertarRegistros]
  | cons reg resto ih =>
    intro idx s c hpend hocc
    obtain ⟨r2, hr2mem, hr2id⟩ := hocc reg (List.mem_cons_self reg resto)
    have hrollback : Sync.Sesion.rollback s = s := by
      cases s
      simp_all [Sync.Sesion.rollback]
    have hidOcupado : Sync.idOcupado s reg.idSolicitud = true := by
      unfold Sync.idOcupado
      rw [List.any_eq_true]
      exact ⟨r2, by simp [hpend, hr2mem], by simp [hr2id]⟩
    simp only [Sync.insertarRegistros, hidOcupado, if_true, if_false, Bool.false_eq_true]
    rw [hrollback]
    rw [ih (idx + 1) s { c with duplicados := c.duplicados + 1 } hpend
      (fun r hr => hocc r (List.mem_cons_of_mem _ hr))]
    congr 2
    simp only [List.length_cons]
    omega

/-- C6 counterexample: the claim promises inserted = 0 on any re-sync
over an unchanged source.  With ID 100 already present and the source
returning [200, 100] both times, the first run loses the flushed insert
of 200 to the rollback taken for the duplicate 100, so the second run
inserts 200 again: its inserted count is 1, not 0. -/
theorem c6_counterexample_rollback_breaks_idempotence :
    (Sync.sincronizarClientesDb2 (Except.ok [⟨200, none⟩, ⟨100, none⟩]) (fun _ => false) true
      [⟨100, none⟩] []).resultado.registrosInsertados = 1 ∧
    ¬ ((Sync.sincronizarClientesDb2 (Except.ok [⟨200, none⟩, ⟨100, none⟩]) (fun _ => false) true
        (Sync.sincronizarClientesDb2 (Except.ok [⟨200, none⟩, ⟨100, none⟩]) (fun _ => false) true
          [⟨100, none⟩] []).dbFinal
        (Sync.sincronizarClientesDb2 (Except.ok [⟨200, none⟩, ⟨100, none⟩]) (fun _ => false) true
          [⟨100, none⟩] []).ledgerFinal).resultado.registrosInsertados = 0) := by
  decide

/-- C6 (amended): when the first run inserts every fetched record (its
duplicate and error counts are zero), a second run over the identical
date range against the unchanged source, without injected insert
failures, reports inserted = 0 and duplicate = N where N is the
inserted count of the first run, relying on the uniqueness of
ID_SOLICITUD. -/
theorem c6_amended_resync_idempotent
    (regs db0 : List Sync.Registro) (ledger0 : List Sync.Control)
    (fallaInfra1 : Nat → Bool) (auditOk1 auditOk2 : Bool) (r1 : Sync.SyncReturn)
    (hr1 : Sync.sincronizarClientesDb2 (Except.ok regs) fallaInfra1 auditOk1 db0 ledger0 = r1)
    (hdup : r1.resultado.registrosDuplicados = 0)
    (herr : r1.resultado.registrosError = 0) :
    (Sync.sincronizarClientesDb2 (Except.ok regs) (fun _ => false) auditOk2
        r1.dbFinal r1.ledgerFinal).resultado.registrosInsertados = 0 ∧
    (Sync.sincronizarClientesDb2 (Except.ok regs) (fun _ => false) auditOk2
        r1.dbFinal r1.ledgerFinal).resultado.registrosDuplicados =
      r1.resultado.registrosInsertados := by
  subst hr1
  by_cases hempty : regs.isEmpty = true
  · have hnil : regs = [] := by simpa using hempty
    subst hnil
    simp [Sync.sincronizarClientesDb2]
  · have hempty' : regs.isEmpty = false := by simpa using hempty
    have hdup' : (Sync.insertarRegistros fallaInfra1 regs 1 ⟨db0, []⟩ ⟨0, 0, 0⟩).2.duplicados = 0 := by
      simpa [Sync.sincronizarClientesDb2, hempty'] using hdup
    have herr' : (Sync.insertarRegistros fallaInfra1 regs 1 ⟨db0, []⟩ ⟨0, 0, 0⟩).2.errores = 0 := by
      simpa [Sync.sincronizarClientesDb2, hempty'] using herr
    have hins := insertar_sin_fallos fallaInfra1 regs 1 ⟨db0, []⟩ ⟨0, 0, 0⟩ hdup' herr'
    have hdup2 := insertar_todo_duplicado regs 1 ⟨db0 ++ regs, []⟩ ⟨0, 0, 0⟩ rfl
      (fun r hr => ⟨r, by simp [hr], rfl⟩)
    constructor <;>
      simp [Sync.sincronizarClientesDb2, hempty', hins, Sync.Sesion.commitAll, hdup2]

/-- C6 witness: a clean first run over two fresh records makes the
second run report inserted = 0 and duplicate = 2 = N. -/
theorem c6_amended_witness :
    (Sync.sincronizarClientesDb2 (Except.ok [⟨1, none⟩, ⟨2, none⟩]) (fun _ => false) true
        (Sync.sincronizarClientesDb2 (Except.ok [⟨1, none⟩, ⟨2, none⟩]) (fun _ => false) true
          [] []).dbFinal
        (Sync.sincronizarClientesDb2 (Except.ok [⟨1, none⟩, ⟨2, none⟩]) (fun _ => false) true
          [] []).ledgerFinal).resultado.registrosInsertados = 0 ∧
    (Sync.sincronizarClientesDb2 (Except.ok [⟨1, none⟩, ⟨2, none⟩]) (fun _ => false) true
        (Sync.sincronizarClientesDb2 (Except.ok [⟨1, none⟩, ⟨2, none⟩]) (fun _ => false) true
          [] []).dbFinal
        (Sync.sincronizarClientesDb2 (Except.ok [⟨1, none⟩, ⟨2, none⟩]) (fun _ => false) true
          [] []).ledgerFinal).resultado.registrosDuplicados =
      (Sync.sincronizarClientesDb2 (Except.ok [⟨1, none⟩, ⟨2, none⟩]) (fun _ => false) true
        [] []).resultado.registrosInsertados :=
  c6_amended_resync_idempotent [⟨1, none⟩, ⟨2, none⟩] [] [] (fun _ => false) true true _
    rfl (by decide) (by decide)

/-
  Helper lemmas about the page loop of the lookup classification.
-/

theorem buclePaginas_detener (api : Nat → FJ.PageResult) (pagina : Nat) (resto : List Nat)
    (acumulados : List FJ.Item) (paginaActual : Nat)
    (h : api pagina = FJ.PageResult.fail ∨ api pagina = FJ.PageResult.ok []) :
    FJ.buclePaginas api (pagina :: resto) acumulados paginaActual =
      (acumulados, paginaActual) := by
  rcases h with h | h <;> simp [FJ.buclePaginas, h]

theorem buclePaginas_correr (api : Nat → FJ.PageResult) :
    ∀ (m inicio : Nat) (qs : List Nat) (acumulados : List FJ.Item) (paginaActual : Nat),
      (∀ i, i < m → ∃ l, api (inicio + i) = FJ.PageResult.ok l ∧ l ≠ []) →
      FJ.buclePaginas api (List.range' inicio m ++ qs) acumulados paginaActual =
        FJ.buclePaginas api qs
          (acumulados ++ (List.range' inicio m).flatMap (FJ.itemsDePagina api))
          (if m = 0 then paginaActual else inicio + m - 1) := by
  intro m
  induction m with
  | zero =>
    intro inicio qs a p _
    simp [List.range']
  | succ m ih =>
    intro inicio qs a p h
    obtain ⟨l, hl, hlne⟩ := h 0 (Nat.succ_pos m)
    rw [Nat.add_zero] at hl
    obtain ⟨x, xs, rfl⟩ := List.exists_cons_of_ne_nil hlne
    simp only [List.range'_succ, List.cons_append, List.flatMap_cons]
    simp only [FJ.buclePaginas, hl]
    rw [ih (inicio + 1) qs (a ++ x :: xs) inicio
      (fun i hi => by
        have hh := h (i + 1) (by omega)
        rwa [show inicio + (i + 1) = inicio + 1 + i by omega] at hh)]
    have h1 : (if m = 0 then inicio else inicio + 1 + m - 1) = inicio + m := by
      split <;> omega
    have h2 : (if m + 1 = 0 then p else inicio + (m + 1) - 1) = inicio + m := by
      rw [if_neg (Nat.succ_ne_zero m)]
      omega
    rw [h1, h2]
    simp [FJ.itemsDePagina, hl, List.append_assoc]

/-- C2: the lookup contract.  For every api behaviour: a failed page 1
yields apiError (for any api agreeing on page 1, since nothing past
page 1 is consulted, and no items are reported); page 1 succeeding
empty yields NoResults; and when pages 1..j all succeed with items
(1 <= j <= MAX_PAGES = 20) and the walk stops at j (either j is
MAX_PAGES, or page j+1 fails, or page j+1 succeeds empty), the outcome
is ResultsFound carrying exactly the items accumulated over pages 1..j
with page count j: a failure after the first page still yields
ResultsFound with the accumulated items. -/
theorem c2_lookup_contract (api : Nat → FJ.PageResult) :
    (api 1 = FJ.PageResult.fail → FJ.lookup api = FJ.Outcome.apiError)
    ∧ (api 1 = FJ.PageResult.ok [] → FJ.lookup api = FJ.Outcome.noResults)
    ∧ (∀ j : Nat, 1 ≤ j → j ≤ FJ.maxPages →
        (∀ p, 1 ≤ p → p ≤ j → ∃ l, api p = FJ.PageResult.ok l ∧ l ≠ []) →
        (j = FJ.maxPages ∨ api (j + 1) = FJ.PageResult.fail ∨
          api (j + 1) = FJ.PageResult.ok []) →
        FJ.lookup api = FJ.Outcome.resultsFound (FJ.itemsHasta api j) j) := by
  refine ⟨?_, ?_, ?_⟩
  · intro h
    simp [FJ.lookup, h]
  · intro h
    simp [FJ.lookup, h]
  · intro j hj1 hj20 hok hstop
    obtain ⟨k, rfl⟩ : ∃ k, j = k + 1 := ⟨j - 1, by omega⟩
    obtain ⟨l1, hl1, hl1ne⟩ := hok 1 le_rfl hj1
    have hl1e : l1.isEmpty = false := by
      cases l1 with
      | nil => exact absurd rfl hl1ne
      | cons y ys => rfl
    have hk19 : k ≤ 19 := by
      have : FJ.maxPages = 20 := rfl
      omega
    have hsplit : List.range' 2 (FJ.maxPages - 1) =
        List.range' 2 k ++ List.range' (k + 2) (19 - k) := by
      have happ := List.range'_append 2 k (19 - k) 1
      rw [show 2 + 1 * k = k + 2 by omega] at happ
      rw [show 19 - k + k = 19 by omega] at happ
      exact happ.symm
    have hitems : FJ.itemsHasta api (k + 1) =
        l1 ++ (List.range' 2 k).flatMap (FJ.itemsDePagina api) := by
      unfold FJ.itemsHasta
      rw [List.range'_succ, List.flatMap_cons]
      simp [FJ.itemsDePagina, hl1]
    have hfin : FJ.buclePaginas api (List.range' (k + 2) (19 - k))
        (l1 ++ (List.range' 2 k).flatMap (FJ.itemsDePagina api))
        (if k = 0 then 1 else 2 + k - 1) =
        (l1 ++ (List.range' 2 k).flatMap (FJ.itemsDePagina api),
         if k = 0 then 1 else 2 + k - 1) := by
      by_cases hk : 19 - k = 0
      · rw [hk]
        simp [FJ.buclePaginas, List.range']
      · obtain ⟨m2, hm2⟩ : ∃ m2, 19 - k = m2 + 1 := ⟨19 - k - 1, by omega⟩
        rw [hm2, List.range'_succ]
        refine buclePaginas_detener api (k + 2) _ _ _ ?_
        rcases hstop with hstop | hstop | hstop
        · exfalso
          have : FJ.maxPages = 20 := rfl
          omega
        · exact Or.inl (by rw [show k + 2 = k + 1 + 1 by omega]; exact hstop)
        · exact Or.inr (by rw [show k + 2 = k + 1 + 1 by omega]; exact hstop)
    have hpag : (if k = 0 then 1 else 2 + k - 1) = k + 1 := by
      split <;> omega
    simp only [FJ.lookup, hl1, hl1e, Bool.false_eq_true, if_false]
    rw [hsplit]
    rw [buclePaginas_correr api k 2 _ l1 1
      (fun i hi => hok (2 + i) (by omega) (by omega))]
    rw [hfin, hitems, hpag]

/-- C2 witness: three concrete api behaviours, one per branch of the
contract. -/
theorem c2_lookup_contract_witness :
    FJ.lookup (fun _ => FJ.PageResult.fail) = FJ.Outcome.apiError
    ∧ FJ.lookup (fun _ => FJ.PageResult.ok []) = FJ.Outcome.noResults
    ∧ FJ.lookup (fun p => if p = 1 then FJ.PageResult.ok [7] else FJ.PageResult.ok [])
        = FJ.Outcome.resultsFound
            (FJ.itemsHasta (fun p => if p = 1 then FJ.PageResult.ok [7] else FJ.PageResult.ok []) 1) 1 :=
  ⟨(c2_lookup_contract (fun _ => FJ.PageResult.fail)).1 rfl,
   (c2_lookup_contract (fun _ => FJ.PageResult.ok [])).2.1 rfl,
   (c2_lookup_contract (fun p => if p = 1 then FJ.PageResult.ok [7] else FJ.PageResult.ok [])).2.2
     1 le_rfl (by decide)
     (fun p hp1 hp2 => ⟨[7], by
        rw [show p = 1 by omega]
        exact ⟨rfl, by decide⟩⟩)
     (Or.inr (Or.inr rfl))⟩

/-
  Helper lemmas about the daemon state machine.
-/

theorem actualizar_actualizar (cid : Nat) (e e2 : Daemon.EstadoConsulta)
    (cs : List Daemon.Cliente) :
    Daemon.actualizarClienteEstado cid e (Daemon.actualizarClienteEstado cid e2 cs) =
      Daemon.actualizarClienteEstado cid e cs := by
  induction cs with
  | nil => rfl
  | cons c resto ih =>
    by_cases hc : c.id = cid
    · simp [Daemon.actualizarClienteEstado, hc]
    · simp [Daemon.actualizarClienteEstado, hc, ih]

theorem cuenta_actualizar_no_procesando (cid : Nat) (e : Daemon.EstadoConsulta)
    (he : e ≠ Daemon.EstadoConsulta.Procesando) (cs : List Daemon.Cliente) :
    Daemon.cuentaProcesando (Daemon.actualizarClienteEstado cid e cs) ≤
      Daemon.cuentaProcesando cs := by
  induction cs with
  | nil => simp [Daemon.actualizarClienteEstado]
  | cons c resto ih =>
    by_cases hc : c.id = cid
    · simp only [Daemon.actualizarClienteEstado, hc, if_true, Daemon.cuentaProcesando]
      split
      · simp_all
      · split <;> omega
    · simp only [Daemon.actualizarClienteEstado, hc, if_false, Daemon.cuentaProcesando]
      omega

theorem cuenta_actualizar_le_succ (cid : Nat) (e : Daemon.EstadoConsulta)
    (cs : List Daemon.Cliente) :
    Daemon.cuentaProcesando (Daemon.actualizarClienteEstado cid e cs) ≤
      Daemon.cuentaProcesando cs + 1 := by
  induction cs with
  | nil => simp [Daemon.actualizarClienteEstado, Daemon.cuentaProcesando]
  | cons c resto ih =>
    by_cases hc : c.id = cid
    · simp only [Daemon.actualizarClienteEstado, hc, if_true, Daemon.cuentaProcesando]
      split <;> split <;> omega
    · simp only [Daemon.actualizarClienteEstado, hc, if_false, Daemon.cuentaProcesando]
      omega

theorem buscar_actualizar (cid : Nat) (e : Daemon.EstadoConsulta)
    (cs : List Daemon.Cliente) :
    Daemon.buscarCliente cid (Daemon.actualizarClienteEstado cid e cs) =
      (Daemon.buscarCliente cid cs).map (fun c => { c with estadoConsulta := e }) := by
  induction cs with
  | nil => rfl
  | cons c resto ih =>
    by_cases hc : c.id = cid
    · simp [Daemon.actualizarClienteEstado, Daemon.buscarCliente, hc]
    · simp [Daemon.actualizarClienteEstado, Daemon.buscarCliente, hc, ih]

theorem buscar_de_mem (cs : List Daemon.Cliente) (c : Daemon.Cliente) (h : c ∈ cs) :
    ∃ c2, Daemon.buscarCliente c.id cs = some c2 := by
  induction cs with
  | nil => cases h
  | cons x resto ih =>
    by_cases hx : x.id = c.id
    · exact ⟨x, by simp [Daemon.buscarCliente, hx]⟩
    · rcases List.mem_cons.mp h with h | h
      · exact absurd (congrArg Daemon.Cliente.id h.symm) hx
      · obtain ⟨c2, hc2⟩ := ih h
        exact ⟨c2, by simp [Daemon.buscarCliente, hx, hc2]⟩

theorem masAntiguo_mem (l : List Daemon.Cliente) :
    ∀ (c : Daemon.Cliente), Daemon.masAntiguo c l ∈ c :: l := by
  induction l with
  | nil => intro c; simp [Daemon.masAntiguo]
  | cons x resto ih =>
    intro c
    simp only [Daemon.masAntiguo]
    split
    · have h := ih x
      rcases List.mem_cons.mp h with h | h
      · rw [h]; simp
      · simp [h]
    · have h := ih c
      rcases List.mem_cons.mp h with h | h
      · rw [h]; simp
      · simp [h]

theorem obtenerClientePendiente_spec (cs : List Daemon.Cliente) (c : Daemon.Cliente)
    (h : Daemon.obtenerClientePendiente cs = some c) :
    c ∈ cs ∧ c.estadoConsulta = Daemon.EstadoConsulta.Pendiente := by
  unfold Daemon.obtenerClientePendiente at h
  split at h
  · cases h
  · next x resto hfilter =>
    have hmem : Daemon.masAntiguo x resto ∈ x :: resto := masAntiguo_mem resto x
    rw [← hfilter] at hmem
    injection h with h2
    subst h2
    have := List.mem_filter.mp hmem
    exact ⟨this.1, by simpa using this.2⟩

theorem freshProcesoId_gt (ps : List Daemon.Proceso) :
    ∀ p ∈ ps, p.id < Daemon.freshProcesoId ps := by
  intro p hp
  have : p.id ∈ ps.map (fun q => q.id) := List.mem_map_of_mem _ hp
  have hle := mem_le_foldr_max _ _ this
  unfold Daemon.freshProcesoId
  omega

theorem actualizarProceso_append (pid : Nat) (e : Daemon.EstadoProceso) (ex : Bool)
    (ps : List Daemon.Proceso) (q : Daemon.Proceso)
    (h : ∀ p ∈ ps, ¬ p.id = pid) (hq : q.id = pid) :
    Daemon.actualizarProceso pid e ex (ps ++ [q]) =
      ps ++ [{ q with estado := e
                      totalPaginasExitosas := if ex then 1 else q.totalPaginasExitosas }] := by
  induction ps with
  | nil => simp [Daemon.actualizarProceso, hq]
  | cons p resto ih =>
    simp only [List.cons_append, Daemon.actualizarProceso,
      h p (List.mem_cons_self p resto), if_false]
    exact congrArg (List.cons p) (ih (fun x hx => h x (List.mem_cons_of_mem _ hx)))

theorem buscarProceso_append (pid : Nat) (ps : List Daemon.Proceso) (q : Daemon.Proceso)
    (h : ∀ p ∈ ps, ¬ p.id = pid) (hq : q.id = pid) :
    Daemon.buscarProceso pid (ps ++ [q]) = some q := by
  induction ps with
  | nil => simp [Daemon.buscarProceso, hq]
  | cons p resto ih =>
    simp only [List.cons_append, Daemon.buscarProceso, h p (List.mem_cons_self p resto), if_false]
    exact ih (fun x hx => h x (List.mem_cons_of_mem _ hx))

theorem ejecutar_caso_exito (env : Daemon.Env) (pid cid : Nat) (nombres : String)
    (jobId : Nat) (s : Daemon.DbState)
    (hdoc : env.guardadoDocOk = true)
    (hapi : ¬ FJ.lookup env.api = FJ.Outcome.apiError) :
    (Daemon.ejecutarConsultaFuncionJudicial env pid cid nombres jobId s).1 = true
    ∧ (Daemon.ejecutarConsultaFuncionJudicial env pid cid nombres jobId s).2.1.clientes =
        s.clientes
    ∧ (Daemon.ejecutarConsultaFuncionJudicial env pid cid nombres jobId s).2.1.procesos =
        Daemon.actualizarProceso pid Daemon.EstadoProceso.Completado true s.procesos := by
  cases hlk : FJ.lookup env.api with
  | apiError => exact absurd hlk hapi
  | noResults =>
    simp [Daemon.ejecutarConsultaFuncionJudicial, FJ.generarReporteHttpx, hlk, hdoc]
    split <;> simp
  | resultsFound items paginas =>
    simp [Daemon.ejecutarConsultaFuncionJudicial, FJ.generarReporteHttpx, hlk, hdoc]
    split <;> simp

theorem ejecutar_caso_api_error (env : Daemon.Env) (pid cid : Nat) (nombres : String)
    (jobId : Nat) (s : Daemon.DbState)
    (hapi : FJ.lookup env.api = FJ.Outcome.apiError) :
    (Daemon.ejecutarConsultaFuncionJudicial env pid cid nombres jobId s).1 = false
    ∧ (Daemon.ejecutarConsultaFuncionJudicial env pid cid nombres jobId s).2.1.clientes =
        Daemon.actualizarClienteEstado cid Daemon.EstadoConsulta.Pendiente s.clientes
    ∧ (Daemon.ejecutarConsultaFuncionJudicial env pid cid nombres jobId s).2.1.procesos =
        Daemon.actualizarProceso pid Daemon.EstadoProceso.Error_API false s.procesos
    ∧ (Daemon.ejecutarConsultaFuncionJudicial env pid cid nombres jobId s).2.1.reportes =
        s.reportes
    ∧ (Daemon.ejecutarConsultaFuncionJudicial env pid cid nombres jobId s).2.1.archivos =
        s.archivos := by
  simp [Daemon.ejecutarConsultaFuncionJudicial, FJ.generarReporteHttpx, hapi]

theorem ejecutar_cuenta (env : Daemon.Env) (pid cid : Nat) (nombres : String)
    (jobId : Nat) (s : Daemon.DbState) :
    ((Daemon.ejecutarConsultaFuncionJudicial env pid cid nombres jobId s).1 = true →
      (Daemon.ejecutarConsultaFuncionJudicial env pid cid nombres jobId s).2.1.clientes =
        s.clientes)
    ∧ ((Daemon.ejecutarConsultaFuncionJudicial env pid cid nombres jobId s).1 = false →
      (Daemon.ejecutarConsultaFuncionJudicial env pid cid nombres jobId s).2.1.clientes =
        Daemon.actualizarClienteEstado cid Daemon.EstadoConsulta.Pendiente s.clientes)
    ∧ (∀ s2 ∈ (Daemon.ejecutarConsultaFuncionJudicial env pid cid nombres jobId s).2.2,
        s2.clientes = s.clientes ∨
        s2.clientes =
          Daemon.actualizarClienteEstado cid Daemon.EstadoConsulta.Pendiente s.clientes) := by
  unfold Daemon.ejecutarConsultaFuncionJudicial
  rcases hgen : FJ.generarReporteHttpx nombres jobId env.api env.guardadoDocOk s.archivos with
    ⟨ruta, res, arch⟩
  rcases res with ⟨esc, tp, tpag⟩
  cases esc <;> cases ruta <;>
    simp <;>
    (try split) <;>
    simp

theorem cicloConsulta_cuenta (env : Daemon.Env) (cliente : Daemon.Cliente)
    (nombres : String) (s s1 : Daemon.DbState)
    (h0 : Daemon.cuentaProcesando s.clientes = 0)
    (hs1c : s1.clientes = Daemon.actualizarClienteEstado cliente.id
      Daemon.EstadoConsulta.Procesando s.clientes) :
    (∀ s3 ∈ (Daemon.cicloConsulta env cliente nombres s1).traza,
       Daemon.cuentaProcesando s3.clientes ≤ 1)
    ∧ Daemon.cuentaProcesando (Daemon.cicloConsulta env cliente nombres s1).db.clientes = 0 := by
  have hproc1 : Daemon.cuentaProcesando s1.clientes ≤ 1 := by
    rw [hs1c]
    have := cuenta_actualizar_le_succ cliente.id Daemon.EstadoConsulta.Procesando s.clientes
    omega
  have hvuelta : ∀ e, e ≠ Daemon.EstadoConsulta.Procesando →
      Daemon.cuentaProcesando (Daemon.actualizarClienteEstado cliente.id e s1.clientes) = 0 := by
    intro e he
    rw [hs1c, actualizar_actualizar]
    have := cuenta_actualizar_no_procesando cliente.id e he s.clientes
    omega
  have hs2c : (Daemon.estadoConProceso env cliente s1).clientes = s1.clientes := rfl
  have hcu : ((Daemon.consultaCiclo env cliente nombres s1).1 = true →
      (Daemon.consultaCiclo env cliente nombres s1).2.1.clientes =
        (Daemon.estadoConProceso env cliente s1).clientes)
    ∧ ((Daemon.consultaCiclo env cliente nombres s1).1 = false →
      (Daemon.consultaCiclo env cliente nombres s1).2.1.clientes =
        Daemon.actualizarClienteEstado cliente.id Daemon.EstadoConsulta.Pendiente
          (Daemon.estadoConProceso env cliente s1).clientes)
    ∧ (∀ s2 ∈ (Daemon.consultaCiclo env cliente nombres s1).2.2,
        s2.clientes = (Daemon.estadoConProceso env cliente s1).clientes ∨
        s2.clientes = Daemon.actualizarClienteEstado cliente.id
          Daemon.EstadoConsulta.Pendiente (Daemon.estadoConProceso env cliente s1).clientes) :=
    ejecutar_cuenta env _ cliente.id nombres _ _
  by_cases hex : (Daemon.consultaCiclo env cliente nombres s1).1 = true
  · simp only [Daemon.cicloConsulta, hex, if_true]
    have hfinc : Daemon.cuentaProcesando (Daemon.dbTrasExito env cliente nombres s1).clientes = 0 := by
      show Daemon.cuentaProcesando (Daemon.actualizarClienteEstado cliente.id
        Daemon.EstadoConsulta.Procesado (Daemon.consultaCiclo env cliente nombres s1).2.1.clientes) = 0
      rw [hcu.1 hex, hs2c]
      exact hvuelta Daemon.EstadoConsulta.Procesado (by simp)
    refine ⟨?_, hfinc⟩
    intro s3 hs3
    simp only [List.mem_append, List.mem_cons, List.not_mem_nil, or_false] at hs3
    rcases hs3 with ((h3 | h3) | h3) | h3
    · subst h3; exact hproc1
    · subst h3; rw [hs2c]; exact hproc1
    · rcases hcu.2.2 s3 h3 with h | h
      · rw [h, hs2c]; exact hproc1
      · rw [h, hs2c]
        have := hvuelta Daemon.EstadoConsulta.Pendiente (by simp)
        omega
    · subst h3
      omega
  · have hex' : (Daemon.consultaCiclo env cliente nombres s1).1 = false := by
      revert hex
      cases (Daemon.consultaCiclo env cliente nombres s1).1 <;> simp
    simp only [Daemon.cicloConsulta, hex', Bool.false_eq_true, if_false]
    have hfinc : Daemon.cuentaProcesando
        (Daemon.consultaCiclo env cliente nombres s1).2.1.clientes = 0 := by
      rw [hcu.2.1 hex', hs2c]
      exact hvuelta Daemon.EstadoConsulta.Pendiente (by simp)
    refine ⟨?_, hfinc⟩
    intro s3 hs3
    simp only [List.mem_append, List.mem_cons, List.not_mem_nil, or_false] at hs3
    rcases hs3 with (h3 | h3) | h3
    · subst h3; exact hproc1
    · subst h3; rw [hs2c]; exact hproc1
    · rcases hcu.2.2 s3 h3 with h | h
      · rw [h, hs2c]; exact hproc1
      · rw [h, hs2c]
        have := hvuelta Daemon.EstadoConsulta.Pendiente (by simp)
        omega

/-- C8: starting from a state with no client in Procesando, one daemon
cycle keeps at most one client in Procesando at every intermediate
write, and ends with none in Procesando: the single worker moves at
most one Pendiente record to Procesando and always moves it out again
(to Procesado, Error, or back to Pendiente) before the cycle ends. -/
theorem c8_at_most_one_processing (env : Daemon.Env) (s : Daemon.DbState)
    (h0 : Daemon.cuentaProcesando s.clientes = 0) :
    (∀ s2 ∈ (Daemon.ciclo env s).traza, Daemon.cuentaProcesando s2.clientes ≤ 1)
    ∧ Daemon.cuentaProcesando (Daemon.ciclo env s).db.clientes = 0 := by
  cases hsel : Daemon.obtenerClientePendiente s.clientes with
  | none => simp [Daemon.ciclo, hsel, h0]
  | some cliente =>
    by_cases hnombre : Daemon.construirNombreBusqueda cliente.apellidos cliente.nombres = ""
    · simp only [Daemon.ciclo, hsel, if_pos hnombre]
      have herror : Daemon.cuentaProcesando (Daemon.actualizarClienteEstado cliente.id
          Daemon.EstadoConsulta.Error s.clientes) = 0 := by
        have := cuenta_actualizar_no_procesando cliente.id
          Daemon.EstadoConsulta.Error (by simp) s.clientes
        omega
      constructor
      · intro s2 hs2
        simp only [List.mem_singleton] at hs2
        subst hs2
        show Daemon.cuentaProcesando (Daemon.actualizarClienteEstado cliente.id
          Daemon.EstadoConsulta.Error s.clientes) ≤ 1
        omega
      · exact herror
    · by_cases hcrear : env.crearProcesoOk = false
      · simp only [Daemon.ciclo, hsel, if_neg hnombre, if_pos hcrear]
        have hida : Daemon.cuentaProcesando (Daemon.actualizarClienteEstado cliente.id
            Daemon.EstadoConsulta.Procesando s.clientes) ≤ 1 := by
          have := cuenta_actualizar_le_succ cliente.id
            Daemon.EstadoConsulta.Procesando s.clientes
          omega
        have hvuelta : Daemon.cuentaProcesando (Daemon.actualizarClienteEstado cliente.id
            Daemon.EstadoConsulta.Pendiente (Daemon.actualizarClienteEstado cliente.id
              Daemon.EstadoConsulta.Procesando s.clientes)) = 0 := by
          rw [actualizar_actualizar]
          have := cuenta_actualizar_no_procesando cliente.id
            Daemon.EstadoConsulta.Pendiente (by simp) s.clientes
          omega
        constructor
        · intro s2 hs2
          simp only [List.mem_cons, List.not_mem_nil, or_false] at hs2
          rcases hs2 with hs2 | hs2 <;> subst hs2
          · exact hida
          · show Daemon.cuentaProcesando (Daemon.actualizarClienteEstado cliente.id
              Daemon.EstadoConsulta.Pendiente (Daemon.actualizarClienteEstado cliente.id
                Daemon.EstadoConsulta.Procesando s.clientes)) ≤ 1
            omega
        · exact hvuelta
      · simp only [Daemon.ciclo, hsel, if_neg hnombre, if_neg hcrear]
        exact cicloConsulta_cuenta env cliente _ s _ h0 rfl

/-- C8 witness: a concrete cycle over one Pendiente client with a
successful lookup keeps the Procesando count within one and ends at
zero. -/
theorem c8_witness :
    (∀ s2 ∈ (Daemon.ciclo
        ⟨fun p => if p = 1 then FJ.PageResult.ok [3] else FJ.PageResult.ok [],
         true, true, true, 11⟩
        ⟨[⟨1, "GARCIA", "JUAN", Daemon.EstadoConsulta.Pendiente, 1⟩], [], [], []⟩).traza,
       Daemon.cuentaProcesando s2.clientes ≤ 1)
    ∧ Daemon.cuentaProcesando
        (Daemon.ciclo
          ⟨fun p => if p = 1 then FJ.PageResult.ok [3] else FJ.PageResult.ok [],
           true, true, true, 11⟩
          ⟨[⟨1, "GARCIA", "JUAN", Daemon.EstadoConsulta.Pendiente, 1⟩], [], [], []⟩).db.clientes = 0 :=
  c8_at_most_one_processing
    ⟨fun p => if p = 1 then FJ.PageResult.ok [3] else FJ.PageResult.ok [],
     true, true, true, 11⟩
    ⟨[⟨1, "GARCIA", "JUAN", Daemon.EstadoConsulta.Pendiente, 1⟩], [], [], []⟩
    (by decide)

theorem ciclo_eq_consulta (env : Daemon.Env) (s : Daemon.DbState) (cliente : Daemon.Cliente)
    (hsel : Daemon.obtenerClientePendiente s.clientes = some cliente)
    (hnombre : ¬ Daemon.construirNombreBusqueda cliente.apellidos cliente.nombres = "")
    (hcrear : ¬ env.crearProcesoOk = false) :
    Daemon.ciclo env s = Daemon.cicloConsulta env cliente
      (Daemon.construirNombreBusqueda cliente.apellidos cliente.nombres)
      { s with clientes := (Daemon.actualizarClienteEstado cliente.id
          Daemon.EstadoConsulta.Procesando s.clientes) } := by
  simp only [Daemon.ciclo, hsel, if_neg hnombre, if_neg hcrear]

theorem cicloConsulta_exito (env : Daemon.Env) (cliente : Daemon.Cliente)
    (nombres : String) (s1 : Daemon.DbState)
    (hdoc : env.guardadoDocOk = true)
    (hapi : ¬ FJ.lookup env.api = FJ.Outcome.apiError) :
    (Daemon.cicloConsulta env cliente nombres s1).db.procesos =
      Daemon.actualizarProceso (Daemon.freshProcesoId s1.procesos)
        Daemon.EstadoProceso.Completado true
        (s1.procesos ++ [Daemon.procesoNuevo env cliente s1])
    ∧ (Daemon.cicloConsulta env cliente nombres s1).db.clientes =
      Daemon.actualizarClienteEstado cliente.id Daemon.EstadoConsulta.Procesado s1.clientes := by
  have he : (Daemon.consultaCiclo env cliente nombres s1).1 = true
      ∧ (Daemon.consultaCiclo env cliente nombres s1).2.1.clientes =
          (Daemon.estadoConProceso env cliente s1).clientes
      ∧ (Daemon.consultaCiclo env cliente nombres s1).2.1.procesos =
          Daemon.actualizarProceso (Daemon.procesoNuevo env cliente s1).id
            Daemon.EstadoProceso.Completado true
            (Daemon.estadoConProceso env cliente s1).procesos :=
    ejecutar_caso_exito env _ cliente.id nombres _ _ hdoc hapi
  simp only [Daemon.cicloConsulta, he.1, if_true]
  constructor
  · show (Daemon.dbTrasExito env cliente nombres s1).procesos = _
    rw [show (Daemon.dbTrasExito env cliente nombres s1).procesos =
      (Daemon.consultaCiclo env cliente nombres s1).2.1.procesos from rfl]
    rw [he.2.2]
    rfl
  · show (Daemon.dbTrasExito env cliente nombres s1).clientes = _
    rw [show (Daemon.dbTrasExito env cliente nombres s1).clientes =
      Daemon.actualizarClienteEstado cliente.id Daemon.EstadoConsulta.Procesado
        (Daemon.consultaCiclo env cliente nombres s1).2.1.clientes from rfl]
    rw [he.2.1]
    rfl

theorem cicloConsulta_api_error (env : Daemon.Env) (cliente : Daemon.Cliente)
    (nombres : String) (s1 : Daemon.DbState)
    (hapi : FJ.lookup env.api = FJ.Outcome.apiError) :
    (Daemon.cicloConsulta env cliente nombres s1).db.clientes =
      Daemon.actualizarClienteEstado cliente.id Daemon.EstadoConsulta.Pendiente s1.clientes
    ∧ (Daemon.cicloConsulta env cliente nombres s1).db.procesos =
      Daemon.actualizarProceso (Daemon.freshProcesoId s1.procesos)
        Daemon.EstadoProceso.Error_API false
        (s1.procesos ++ [Daemon.procesoNuevo env cliente s1])
    ∧ (Daemon.cicloConsulta env cliente nombres s1).db.reportes = s1.reportes
    ∧ (Daemon.cicloConsulta env cliente nombres s1).db.archivos = s1.archivos := by
  have he : (Daemon.consultaCiclo env cliente nombres s1).1 = false
      ∧ (Daemon.consultaCiclo env cliente nombres s1).2.1.clientes =
          Daemon.actualizarClienteEstado cliente.id Daemon.EstadoConsulta.Pendiente
            (Daemon.estadoConProceso env cliente s1).clientes
      ∧ (Daemon.consultaCiclo env cliente nombres s1).2.1.procesos =
          Daemon.actualizarProceso (Daemon.procesoNuevo env cliente s1).id
            Daemon.EstadoProceso.Error_API false
            (Daemon.estadoConProceso env cliente s1).procesos
      ∧ (Daemon.consultaCiclo env cliente nombres s1).2.1.reportes =
          (Daemon.estadoConProceso env cliente s1).reportes
      ∧ (Daemon.consultaCiclo env cliente nombres s1).2.1.archivos =
          (Daemon.estadoConProceso env cliente s1).archivos :=
    ejecutar_caso_api_error env _ cliente.id nombres _ _ hapi
  simp only [Daemon.cicloConsulta, he.1, Bool.false_eq_true, if_false]
  exact ⟨he.2.1, by rw [he.2.2.1]; rfl, he.2.2.2.1, he.2.2.2.2⟩

/-- C4 counterexample: the claim says a failure to render or persist
the artifact never downgrades a ResultsFound outcome.  With an api that
finds one case on page 1 and a doc.save failure (guardadoDocOk false),
the lookup classification is ResultsFound, yet generar_reporte_httpx
returns scenario error, so the cycle marks the process Error_Total and
resets the client to Pendiente instead of Completado/Procesado. -/
theorem c4_counterexample_render_failure_downgrades :
    FJ.lookup (fun p => if p = 1 then FJ.PageResult.ok [5] else FJ.PageResult.ok []) =
      FJ.Outcome.resultsFound [5] 1
    ∧ (Daemon.ciclo
        ⟨fun p => if p = 1 then FJ.PageResult.ok [5] else FJ.PageResult.ok [],
         false, true, true, 7⟩
        ⟨[⟨1, "GARCIA", "JUAN", Daemon.EstadoConsulta.Pendiente, 0⟩], [], [], []⟩).db.procesos =
      [⟨1, 1, 7, Daemon.EstadoProceso.Error_Total, 0⟩]
    ∧ (Daemon.ciclo
        ⟨fun p => if p = 1 then FJ.PageResult.ok [5] else FJ.PageResult.ok [],
         false, true, true, 7⟩
        ⟨[⟨1, "GARCIA", "JUAN", Daemon.EstadoConsulta.Pendiente, 0⟩], [], [], []⟩).db.clientes =
      [⟨1, "GARCIA", "JUAN", Daemon.EstadoConsulta.Pendiente, 0⟩] := by
  decide

/-- C4 (amended): when the artifact itself is rendered and saved
successfully (guardadoDocOk) and the lookup outcome is ResultsFound or
NoResults, a failure to persist the ReportRecord row in the database is
logged but does not downgrade the outcome, whatever guardarReporteOk
is: the ProcessRecord of the cycle ends Completado and the ClientRecord
ends Procesado.  A failure to save the artifact file, by contrast,
downgrades the cycle (see the counterexample). -/
theorem c4_amended_db_persist_best_effort (env : Daemon.Env) (s : Daemon.DbState)
    (cliente : Daemon.Cliente)
    (hsel : Daemon.obtenerClientePendiente s.clientes = some cliente)
    (hnombre : ¬ Daemon.construirNombreBusqueda cliente.apellidos cliente.nombres = "")
    (hcrear : env.crearProcesoOk = true)
    (hdoc : env.guardadoDocOk = true)
    (hapi : ¬ FJ.lookup env.api = FJ.Outcome.apiError) :
    ((Daemon.buscarProceso (Daemon.freshProcesoId s.procesos)
        (Daemon.ciclo env s).db.procesos).map Daemon.Proceso.estado =
      some Daemon.EstadoProceso.Completado)
    ∧ ((Daemon.buscarCliente cliente.id (Daemon.ciclo env s).db.clientes).map
        Daemon.Cliente.estadoConsulta = some Daemon.EstadoConsulta.Procesado) := by
  have hcrear' : ¬ env.crearProcesoOk = false := by simp [hcrear]
  rw [ciclo_eq_consulta env s cliente hsel hnombre hcrear']
  set s1 : Daemon.DbState := { s with clientes := (Daemon.actualizarClienteEstado cliente.id
    Daemon.EstadoConsulta.Procesando s.clientes) } with hs1
  have hce := cicloConsulta_exito env cliente
    (Daemon.construirNombreBusqueda cliente.apellidos cliente.nombres) s1 hdoc hapi
  have hfr : ∀ p ∈ s.procesos, ¬ p.id = Daemon.freshProcesoId s.procesos := by
    intro p hp
    have := freshProcesoId_gt s.procesos p hp
    omega
  constructor
  · rw [hce.1]
    rw [show s1.procesos = s.procesos from rfl]
    rw [actualizarProceso_append _ _ _ _ _ hfr rfl]
    rw [buscarProceso_append _ _ _ hfr rfl]
    rfl
  · rw [hce.2]
    rw [show s1.clientes = Daemon.actualizarClienteEstado cliente.id
      Daemon.EstadoConsulta.Procesando s.clientes from rfl]
    rw [actualizar_actualizar, buscar_actualizar]
    obtain ⟨c2, hc2⟩ := buscar_de_mem s.clientes cliente
      (obtenerClientePendiente_spec s.clientes cliente hsel).1
    rw [hc2]
    rfl

/-- C4 witness: a concrete cycle whose lookup finds one case, with the
report-row insert failing (guardarReporteOk false), still ends
Completado and Procesado. -/
theorem c4_amended_witness :
    ((Daemon.buscarProceso (Daemon.freshProcesoId ([] : List Daemon.Proceso))
        (Daemon.ciclo
          ⟨fun p => if p = 1 then FJ.PageResult.ok [3] else FJ.PageResult.ok [],
           true, true, false, 9⟩
          ⟨[⟨1, "GARCIA", "JUAN", Daemon.EstadoConsulta.Pendiente, 0⟩], [], [], []⟩).db.procesos).map
        Daemon.Proceso.estado = some Daemon.EstadoProceso.Completado)
    ∧ ((Daemon.buscarCliente 1
        (Daemon.ciclo
          ⟨fun p => if p = 1 then FJ.PageResult.ok [3] else FJ.PageResult.ok [],
           true, true, false, 9⟩
          ⟨[⟨1, "GARCIA", "JUAN", Daemon.EstadoConsulta.Pendiente, 0⟩], [], [], []⟩).db.clientes).map
        Daemon.Cliente.estadoConsulta = some Daemon.EstadoConsulta.Procesado) :=
  c4_amended_db_persist_best_effort
    ⟨fun p => if p = 1 then FJ.PageResult.ok [3] else FJ.PageResult.ok [],
     true, true, false, 9⟩
    ⟨[⟨1, "GARCIA", "JUAN", Daemon.EstadoConsulta.Pendiente, 0⟩], [], [], []⟩
    ⟨1, "GARCIA", "JUAN", Daemon.EstadoConsulta.Pendiente, 0⟩
    (by decide) (by decide) rfl rfl (by decide)

/-- C5: when the lookup classification of a cycle is ApiError and the
process row was created, the cycle ends with the client back to
Pendiente, the process row of the cycle in Error_API, the report table
unchanged, and hence no ReportRecord for that ProcessRecord. -/
theorem c5_api_error_resets_pending (env : Daemon.Env) (s : Daemon.DbState)
    (cliente : Daemon.Cliente)
    (hsel : Daemon.obtenerClientePendiente s.clientes = some cliente)
    (hnombre : ¬ Daemon.construirNombreBusqueda cliente.apellidos cliente.nombres = "")
    (hcrear : env.crearProcesoOk = true)
    (hapi : FJ.lookup env.api = FJ.Outcome.apiError) :
    ((Daemon.buscarCliente cliente.id (Daemon.ciclo env s).db.clientes).map
        Daemon.Cliente.estadoConsulta = some Daemon.EstadoConsulta.Pendiente)
    ∧ ((Daemon.buscarProceso (Daemon.freshProcesoId s.procesos)
        (Daemon.ciclo env s).db.procesos).map Daemon.Proceso.estado =
      some Daemon.EstadoProceso.Error_API)
    ∧ (Daemon.ciclo env s).db.reportes = s.reportes
    ∧ ((∀ rep ∈ s.reportes, ¬ rep.procesoId = Daemon.freshProcesoId s.procesos) →
       ∀ rep ∈ (Daemon.ciclo env s).db.reportes,
         ¬ rep.procesoId = Daemon.freshProcesoId s.procesos) := by
  have hcrear' : ¬ env.crearProcesoOk = false := by simp [hcrear]
  rw [ciclo_eq_consulta env s cliente hsel hnombre hcrear']
  set s1 : Daemon.DbState := { s with clientes := (Daemon.actualizarClienteEstado cliente.id
    Daemon.EstadoConsulta.Procesando s.clientes) } with hs1
  have hce := cicloConsulta_api_error env cliente
    (Daemon.construirNombreBusqueda cliente.apellidos cliente.nombres) s1 hapi
  have hfr : ∀ p ∈ s.procesos, ¬ p.id = Daemon.freshProcesoId s.procesos := by
    intro p hp
    have := freshProcesoId_gt s.procesos p hp
    omega
  have hrep : (Daemon.cicloConsulta env cliente
      (Daemon.construirNombreBusqueda cliente.apellidos cliente.nombres) s1).db.reportes =
      s.reportes := by
    rw [hce.2.2.1]
  refine ⟨?_, ?_, hrep, ?_⟩
  · rw [hce.1]
    rw [show s1.clientes = Daemon.actualizarClienteEstado cliente.id
      Daemon.EstadoConsulta.Procesando s.clientes from rfl]
    rw [actualizar_actualizar, buscar_actualizar]
    obtain ⟨c2, hc2⟩ := buscar_de_mem s.clientes cliente
      (obtenerClientePendiente_spec s.clientes cliente hsel).1
    rw [hc2]
    rfl
  · rw [hce.2.1]
    rw [show s1.procesos = s.procesos from rfl]
    rw [actualizarProceso_append _ _ _ _ _ hfr rfl]
    rw [buscarProceso_append _ _ _ hfr rfl]
    rfl
  · intro h rep hmem
    rw [hrep] at hmem
    exact h rep hmem

/-- C5 witness: with an api that always fails, a concrete cycle leaves
the client Pendiente, the process Error_API and the report table
empty. -/
theorem c5_witness :
    ((Daemon.buscarCliente 1
        (Daemon.ciclo ⟨fun _ => FJ.PageResult.fail, true, true, true, 9⟩
          ⟨[⟨1, "GARCIA", "JUAN", Daemon.EstadoConsulta.Pendiente, 0⟩], [], [], []⟩).db.clientes).map
        Daemon.Cliente.estadoConsulta = some Daemon.EstadoConsulta.Pendiente)
    ∧ ((Daemon.buscarProceso (Daemon.freshProcesoId ([] : List Daemon.Proceso))
        (Daemon.ciclo ⟨fun _ => FJ.PageResult.fail, true, true, true, 9⟩
          ⟨[⟨1, "GARCIA", "JUAN", Daemon.EstadoConsulta.Pendiente, 0⟩], [], [], []⟩).db.procesos).map
        Daemon.Proceso.estado = some Daemon.EstadoProceso.Error_API)
    ∧ (Daemon.ciclo ⟨fun _ => FJ.PageResult.fail, true, true, true, 9⟩
        ⟨[⟨1, "GARCIA", "JUAN", Daemon.EstadoConsulta.Pendiente, 0⟩], [], [], []⟩).db.reportes = []
    ∧ ((∀ rep ∈ ([] : List Daemon.Reporte),
          ¬ rep.procesoId = Daemon.freshProcesoId ([] : List Daemon.Proceso)) →
       ∀ rep ∈ (Daemon.ciclo ⟨fun _ => FJ.PageResult.fail, true, true, true, 9⟩
          ⟨[⟨1, "GARCIA", "JUAN", Daemon.EstadoConsulta.Pendiente, 0⟩], [], [], []⟩).db.reportes,
         ¬ rep.procesoId = Daemon.freshProcesoId ([] : List Daemon.Proceso)) :=
  c5_api_error_resets_pending
    ⟨fun _ => FJ.PageResult.fail, true, true, true, 9⟩
    ⟨[⟨1, "GARCIA", "JUAN", Daemon.EstadoConsulta.Pendiente, 0⟩], [], [], []⟩
    ⟨1, "GARCIA", "JUAN", Daemon.EstadoConsulta.Pendiente, 0⟩
    (by decide) (by decide) rfl rfl

/-- C9: when the dequeued client yields an empty constructed search
name, the cycle marks exactly that client Error, touches neither the
process nor the report table, and skips the wait phase (espero is
false); and Error is terminal: the dequeue only ever returns Pendiente
clients, so an Error client is never retried. -/
theorem c9_empty_name_terminal_error_skips_wait (env : Daemon.Env) (s : Daemon.DbState)
    (cliente : Daemon.Cliente)
    (hsel : Daemon.obtenerClientePendiente s.clientes = some cliente)
    (hnombre : Daemon.construirNombreBusqueda cliente.apellidos cliente.nombres = "") :
    (Daemon.ciclo env s).espero = false
    ∧ ((Daemon.buscarCliente cliente.id (Daemon.ciclo env s).db.clientes).map
        Daemon.Cliente.estadoConsulta = some Daemon.EstadoConsulta.Error)
    ∧ (Daemon.ciclo env s).db.procesos = s.procesos
    ∧ (Daemon.ciclo env s).db.reportes = s.reportes
    ∧ (∀ (cs : List Daemon.Cliente) (c2 : Daemon.Cliente),
        Daemon.obtenerClientePendiente cs = some c2 →
        c2.estadoConsulta = Daemon.EstadoConsulta.Pendiente) := by
  have hc : Daemon.ciclo env s =
      { db := { s with clientes := (Daemon.actualizarClienteEstado cliente.id
          Daemon.EstadoConsulta.Error s.clientes) }
        espero := false
        traza := [{ s with clientes := (Daemon.actualizarClienteEstado cliente.id
          Daemon.EstadoConsulta.Error s.clientes) }] } := by
    simp only [Daemon.ciclo, hsel, if_pos hnombre]
  rw [hc]
  refine ⟨rfl, ?_, rfl, rfl, ?_⟩
  · show (Daemon.buscarCliente cliente.id (Daemon.actualizarClienteEstado cliente.id
      Daemon.EstadoConsulta.Error s.clientes)).map Daemon.Cliente.estadoConsulta =
      some Daemon.EstadoConsulta.Error
    rw [buscar_actualizar]
    obtain ⟨c2, hc2⟩ := buscar_de_mem s.clientes cliente
      (obtenerClientePendiente_spec s.clientes cliente hsel).1
    rw [hc2]
    rfl
  · intro cs c2 h
    exact (obtenerClientePendiente_spec cs c2 h).2

/-- C9 witness: apellidos "." and nombres "-" clean to the empty search
name; the concrete cycle marks the client Error and skips the wait. -/
theorem c9_witness :
    (Daemon.ciclo ⟨fun _ => FJ.PageResult.fail, true, true, true, 9⟩
      ⟨[⟨1, ".", "-", Daemon.EstadoConsulta.Pendiente, 0⟩], [], [], []⟩).espero = false
    ∧ ((Daemon.buscarCliente 1
        (Daemon.ciclo ⟨fun _ => FJ.PageResult.fail, true, true, true, 9⟩
          ⟨[⟨1, ".", "-", Daemon.EstadoConsulta.Pendiente, 0⟩], [], [], []⟩).db.clientes).map
        Daemon.Cliente.estadoConsulta = some Daemon.EstadoConsulta.Error)
    ∧ (Daemon.ciclo ⟨fun _ => FJ.PageResult.fail, true, true, true, 9⟩
        ⟨[⟨1, ".", "-", Daemon.EstadoConsulta.Pendiente, 0⟩], [], [], []⟩).db.procesos = []
    ∧ (Daemon.ciclo ⟨fun _ => FJ.PageResult.fail, true, true, true, 9⟩
        ⟨[⟨1, ".", "-", Daemon.EstadoConsulta.Pendiente, 0⟩], [], [], []⟩).db.reportes = []
    ∧ (∀ (cs : List Daemon.Cliente) (c2 : Daemon.Cliente),
        Daemon.obtenerClientePendiente cs = some c2 →
        c2.estadoConsulta = Daemon.EstadoConsulta.Pendiente) :=
  c9_empty_name_terminal_error_skips_wait
    ⟨fun _ => FJ.PageResult.fail, true, true, true, 9⟩
    ⟨[⟨1, ".", "-", Daemon.EstadoConsulta.Pendiente, 0⟩], [], [], []⟩
    ⟨1, ".", "-", Daemon.EstadoConsulta.Pendiente, 0⟩
    (by decide) (by decide)

/-- C10: the artifact path returned by generar_reporte_httpx is always
the fixed directory plus "reporte_" plus the search name with spaces
replaced by underscores plus ".docx", and never depends on the job
identifier; consequently, in a concrete two-cycle run over two clients
whose fields build the same search name, both ReportRecords reference
the one path and the file store holds a single file for it whose
content is the one written by the later cycle (jobId 22 overwrote
jobId 11). -/
theorem c10_report_path_depends_only_on_name :
    (∀ (nombre : String) (jobId : Nat) (api : Nat → FJ.PageResult) (g : Bool)
       (arch : List (String × Nat)),
       (FJ.generarReporteHttpx nombre jobId api g arch).1 = none ∨
       (FJ.generarReporteHttpx nombre jobId api g arch).1 = some (FJ.rutaReporte nombre))
    ∧ (∀ (nombre : String) (j1 j2 : Nat) (api : Nat → FJ.PageResult) (g : Bool)
       (arch : List (String × Nat)),
       (FJ.generarReporteHttpx nombre j1 api g arch).1 =
       (FJ.generarReporteHttpx nombre j2 api g arch).1)
    ∧ (Daemon.ciclo
        ⟨fun p => if p = 1 then FJ.PageResult.ok [3] else FJ.PageResult.ok [],
         true, true, true, 22⟩
        (Daemon.ciclo
          ⟨fun p => if p = 1 then FJ.PageResult.ok [3] else FJ.PageResult.ok [],
           true, true, true, 11⟩
          ⟨[⟨1, "GARCIA", "JUAN", Daemon.EstadoConsulta.Pendiente, 1⟩,
            ⟨2, "GARCIA", "JUAN", Daemon.EstadoConsulta.Pendiente, 2⟩], [], [], []⟩).db).db.reportes.map
        (fun rep => rep.rutaArchivo) =
      [FJ.rutaReporte "GARCIA JUAN", FJ.rutaReporte "GARCIA JUAN"]
    ∧ (Daemon.ciclo
        ⟨fun p => if p = 1 then FJ.PageResult.ok [3] else FJ.PageResult.ok [],
         true, true, true, 22⟩
        (Daemon.ciclo
          ⟨fun p => if p = 1 then FJ.PageResult.ok [3] else FJ.PageResult.ok [],
           true, true, true, 11⟩
          ⟨[⟨1, "GARCIA", "JUAN", Daemon.EstadoConsulta.Pendiente, 1⟩,
            ⟨2, "GARCIA", "JUAN", Daemon.EstadoConsulta.Pendiente, 2⟩], [], [], []⟩).db).db.archivos =
      [(FJ.rutaReporte "GARCIA JUAN", 22)] := by
  refine ⟨?_, ?_, by decide, by decide⟩
  · intro nombre jobId api g arch
    unfold FJ.generarReporteHttpx
    cases FJ.lookup api <;> cases g <;> simp
  · intro nombre j1 j2 api g arch
    unfold FJ.generarReporteHttpx
    cases FJ.lookup api <;> cases g <;> simp
